import Mathlib

/-
Verification of barasher/influxdb-pusher, library code in pkg/pusher.go.

The Go source is shallowly embedded below. Go machine integers are modelled
as Int (no overflow is reachable in this code: values are small constants).
Fallible Go functions returning (T, error) are modelled with Except; a Go
`error` value that may be nil is modelled as Option GoError, none standing
for nil.
-/

/-- Consistency mirrors the Go named type `type Consistency int`;
its named constants are the iota values 0..3. -/
abbrev Consistency := Int

def ConsistencyAny : Consistency := 0

def ConsistencyOne : Consistency := 1

def ConsistencyQuorum : Consistency := 2

def ConsistencyAll : Consistency := 3

/-- Precision mirrors the Go named type `type Precision int`;
its named constants are the iota values 0..5. -/
abbrev Precision := Int

def PrecisionNanosecond : Precision := 0

def PrecisionMicrosecond : Precision := 1

def PrecisionMillisecond : Precision := 2

def PrecisionSecond : Precision := 3

def PrecisionMinute : Precision := 4

def PrecisionHour : Precision := 5

/-- Lookup in the Go map literal `consistencyToString`; a map lookup
`v, f := m[c]` is modelled as an Option result (none = key absent). -/
def consistencyToString (c : Consistency) : Option String :=
  if c = ConsistencyAny then some "any"
  else if c = ConsistencyAll then some "all"
  else if c = ConsistencyOne then some "one"
  else if c = ConsistencyQuorum then some "quorum"
  else none

/-- Lookup in the Go map literal `precisionToString`. -/
def precisionToString (p : Precision) : Option String :=
  if p = PrecisionNanosecond then some "ns"
  else if p = PrecisionMicrosecond then some "u"
  else if p = PrecisionMillisecond then some "ms"
  else if p = PrecisionSecond then some "s"
  else if p = PrecisionMinute then some "m"
  else if p = PrecisionHour then some "h"
  else none

/-- Pusher mirrors the Go struct `Pusher` field for field (all fields are
Go strings). -/
structure Pusher where
  baseURL : String
  db : String
  username : String
  password : String
  consistency : String
  precision : String
  retentionPolicy : String
deriving Repr, DecidableEq

/-- Go zero value `Pusher{}`: every string field is empty. -/
def Pusher.zero : Pusher := ⟨"", "", "", "", "", "", ""⟩

/-- An option function `func(*Pusher) error`; the mutation of the pointee is
modelled by state passing, the error result by Except. -/
abbrev Opt := Pusher → Except String Pusher

/-- Body of the option loop inside NewPusher:
`for _, opt := range opts { if err := opt(&p); err != nil { return nil,
fmt.Errorf("error when creating new pusher: %v", err) } }`. -/
def applyOpts : Pusher → List Opt → Except String Pusher
  | p, [] => .ok p
  | p, o :: os =>
    match o p with
    | .error e => .error ("error when creating new pusher: " ++ e)
    | .ok p2 => applyOpts p2 os

/-- NewPusher from pkg/pusher.go: rejects an empty baseURL, then an empty
db, then starts from the zero value `p := Pusher{}` and applies the option
functions in order, aborting with a wrapped error at the first failure.
Note the source never assigns baseURL or db to the struct: the returned
pusher keeps the zero values for those fields. -/
def NewPusher (baseURL : String) (db : String) (opts : List Opt) :
    Except String Pusher :=
  if baseURL = "" then .error "no url provided"
  else if db = "" then .error "no database provided"
  else applyOpts Pusher.zero opts

/-- OptWithConsistency from pkg/pusher.go: map lookup, error on a key that
is not in the map, otherwise store the wire string. -/
def OptWithConsistency (c : Consistency) : Opt := fun p =>
  match consistencyToString c with
  | none => .error s!"Unknown consistency ({c})"
  | some v => .ok { p with consistency := v }

/-- OptWithUserPass from pkg/pusher.go: stores both fields, never fails. -/
def OptWithUserPass (user : String) (pass : String) : Opt := fun p =>
  .ok { p with username := user, password := pass }

/-- OptWithPrecision from pkg/pusher.go: map lookup, error on a key that
is not in the map, otherwise store the wire string. -/
def OptWithPrecision (pr : Precision) : Opt := fun pu =>
  match precisionToString pr with
  | none => .error s!"Unknown precision ({pr})"
  | some v => .ok { pu with precision := v }

/-- OptWithRetentionPolicy from pkg/pusher.go: stores the field, never
fails. -/
def OptWithRetentionPolicy (rp : String) : Opt := fun p =>
  .ok { p with retentionPolicy := rp }

/-- errorType mirrors the Go `type errorType int` with its four iota
constants; the enumeration in pkg/pusher.go has exactly these four kinds. -/
inductive errorType where
  | errTypeBadRequest
  | errTypeUnauthorized
  | errTypeNotExist
  | errTypeServerProblem
deriving Repr, DecidableEq, BEq

export errorType (errTypeBadRequest errTypeUnauthorized errTypeNotExist errTypeServerProblem)

/-- Go map literal `errorTypeToString`. -/
def errorTypeToString (t : errorType) : String :=
  match t with
  | errTypeBadRequest => "bad request"
  | errTypeUnauthorized => "unauthorized"
  | errTypeNotExist => "not exist"
  | errTypeServerProblem => "server problem"

/-- A Go `error` interface value (non-nil): either the package's own
`pushError` (kind tag plus wrapped detail, whose text is modelled by the
wrapped error's message string) or any other error value such as one made
by `fmt.Errorf`. A possibly-nil error is `Option GoError`, none = nil. -/
inductive GoError where
  | pushError (errType : errorType) (err : String)
  | generic (msg : String)
deriving Repr, DecidableEq

/-- The `func (e pushError) Error() string` method (diagnostic text only). -/
def GoError.message : GoError → String
  | .pushError t e => errorTypeToString t ++ ": " ++ e
  | .generic m => m

/-- isErrorType from pkg/pusher.go: the type assertion `err.(pushError)`
fails on nil and on any non-pushError value, giving false; otherwise the
kind tags are compared. -/
def isErrorType (err : Option GoError) (t : errorType) : Bool :=
  match err with
  | some (.pushError et _) => et == t
  | _ => false

/-- IsBadRequestError from pkg/pusher.go. -/
def IsBadRequestError (err : Option GoError) : Bool :=
  isErrorType err errTypeBadRequest

/-- IsUnauthorizedError from pkg/pusher.go. -/
def IsUnauthorizedError (err : Option GoError) : Bool :=
  isErrorType err errTypeUnauthorized

/-- IsNotExistError from pkg/pusher.go. -/
def IsNotExistError (err : Option GoError) : Bool :=
  isErrorType err errTypeNotExist

/-- IsServerProblemError from pkg/pusher.go. -/
def IsServerProblemError (err : Option GoError) : Bool :=
  isErrorType err errTypeServerProblem

/-- newError from pkg/pusher.go: `return pushError{t, err}` (always
non-nil). -/
def newError (t : errorType) (err : String) : GoError :=
  .pushError t err

/-- Go net/url Values: the multimap of query parameters, as an association
list. -/
abbrev Values := List (String × String)

/-- Go strings.Cut at the character c: none when c is absent, otherwise the
parts before and after its first occurrence. -/
def cutChar (c : Char) : List Char → Option (List Char × List Char)
  | [] => none
  | a :: as =>
    if a = c then some ([], as)
    else (cutChar c as).map fun br => (a :: br.1, br.2)

/-- Split a character list at every occurrence of the character c. -/
def splitChar (c : Char) : List Char → List (List Char)
  | [] => [[]]
  | a :: as =>
    if a = c then [] :: splitChar c as
    else
      match splitChar c as with
      | [] => [[a]]
      | h :: t => (a :: h) :: t

/-- Model of Go net/url ParseQuery restricted to what this program needs:
split the raw query at each ampersand, each piece at its first equals sign.
(Percent-unescaping is omitted: in this program every parsed query is a
value that the caller immediately discards, see addQueryParamIfNotEmpty.) -/
def parseQueryString (s : String) : Values :=
  if s = "" then []
  else
    (splitChar (Char.ofNat 38) s.toList).map fun kv =>
      match cutChar (Char.ofNat 61) kv with
      | none => (String.mk kv, "")
      | some kv2 => (String.mk kv2.1, String.mk kv2.2)

/-- Go `Values.Add`: appends the key/value pair to the multimap. -/
def valuesAdd (vs : Values) (k : String) (v : String) : Values :=
  vs ++ [(k, v)]

/-- A Go net/url URL, restricted to the two parts this program's control
flow can distinguish: everything before the first question mark (scheme,
host and path, kept verbatim) and RawQuery (everything after it). -/
structure URL where
  beforeQuery : String
  rawQuery : String
deriving Repr, DecidableEq

/-- The `func (u *URL) Query() Values` method: parses RawQuery into a
freshly built Values map. Each call returns a new copy; mutating the
returned copy does not change the URL. -/
def URL.query (u : URL) : Values :=
  parseQueryString u.rawQuery

/-- The `func (u *URL) String() string` method, for the URLs this program
builds: the part before the query, then a question mark and the raw query
when the latter is non-empty. -/
def URL.render (u : URL) : String :=
  u.beforeQuery ++ (if u.rawQuery = "" then "" else "?" ++ u.rawQuery)

/-- Model of Go net/url Parse restricted to what this program exercises:
Parse rejects a URL containing an ASCII control character (byte below 0x20,
or 0x7f) with the message `net/url: invalid control character in URL`;
otherwise it succeeds and RawQuery is everything after the first question
mark. (Other failure modes of the real Parse, such as invalid percent
escapes, are not modelled: no theorem below relies on a string being
accepted by Parse beyond those the real Parse accepts, and the rejection
path used below is exactly the control-character check Go performs.) -/
def goURLParse (s : String) : Except String URL :=
  if s.toList.any (fun c => c.toNat < 0x20 || c.toNat == 0x7f) then
    .error "net/url: invalid control character in URL"
  else
    match cutChar (Char.ofNat 63) s.toList with
    | none => .ok ⟨s, ""⟩
    | some br => .ok ⟨String.mk br.1, String.mk br.2⟩

/-- addQueryParamIfNotEmpty from pkg/pusher.go:
`if v != "" { u.Query().Add(k, v) }`.
`u.Query()` parses RawQuery into a fresh Values copy; `Add` mutates only
that copy, which the statement then discards, so the URL itself is returned
unchanged on both branches (its RawQuery is never written). -/
def addQueryParamIfNotEmpty (u : URL) (k : String) (v : String) : URL :=
  if v ≠ "" then
    let _discardedCopy := valuesAdd u.query k v
    u
  else u

/-- Lines 204-213 of Push in pkg/pusher.go: parse the pusher's baseURL
(a failure is wrapped as an errTypeBadRequest pushError), then run the six
addQueryParamIfNotEmpty calls with the fixed key names. -/
def pushURL (p : Pusher) : Except GoError URL :=
  match goURLParse p.baseURL with
  | .error err =>
      .error (newError errTypeBadRequest
        ("error when parsing URL \x27" ++ p.baseURL ++ "\x27: " ++ err))
  | .ok u =>
      let u := addQueryParamIfNotEmpty u "db" p.db
      let u := addQueryParamIfNotEmpty u "consistency" p.consistency
      let u := addQueryParamIfNotEmpty u "u" p.username
      let u := addQueryParamIfNotEmpty u "p" p.password
      let u := addQueryParamIfNotEmpty u "precision" p.precision
      let u := addQueryParamIfNotEmpty u "rp" p.retentionPolicy
      .ok u

/-- The string `uStr := u.String()` that Push computes (and logs at debug
level) for a given pusher; none when the parse step fails. -/
def pushBuiltURL (p : Pusher) : Option String :=
  match pushURL p with
  | .error _ => none
  | .ok u => some u.render

/-- Push from pkg/pusher.go (lines 203-220). The method receiver is
threaded through and returned so that frame properties can be stated; the
returned Option GoError is the Go error result (none = nil). After building
uStr the source only logs it: the HTTP POST is commented out
(`//resp, err := http.Post(uStr)`), so the function then returns nil.
The file-path argument f is never used. -/
def Push (p : Pusher) (f : String) : Pusher × Option GoError :=
  match pushURL p with
  | .error e => (p, some e)
  | .ok u =>
      let _uStr := u.render
      (p, none)

deriving instance DecidableEq for Except

/-- Helper for the option loop: when a first block of options all succeed,
running an extended list continues from the state the block produced. -/
theorem applyOpts_append (l1 l2 : List Opt) (q p : Pusher)
    (h : applyOpts q l1 = .ok p) :
    applyOpts q (l1 ++ l2) = applyOpts p l2 := by
  induction l1 generalizing q with
  | nil =>
    simp only [applyOpts, Except.ok.injEq] at h
    simp [h]
  | cons o os ih =>
    simp only [applyOpts, List.cons_append] at h ⊢
    cases ho : o q with
    | error e => rw [ho] at h; simp at h
    | ok q2 => rw [ho] at h; exact ih q2 h

/-- C4: for every named consistency value (any, one, quorum, all) and every
named precision value (ns, u, ms, s, m, h), the option function stores the
exact lowercase wire string and returns no error; for every ordinal outside
the named enumeration it returns an error and stores nothing. -/
theorem opt_enum_validation :
    (∀ p : Pusher, OptWithConsistency ConsistencyAny p = .ok { p with consistency := "any" })
  ∧ (∀ p : Pusher, OptWithConsistency ConsistencyOne p = .ok { p with consistency := "one" })
  ∧ (∀ p : Pusher, OptWithConsistency ConsistencyQuorum p = .ok { p with consistency := "quorum" })
  ∧ (∀ p : Pusher, OptWithConsistency ConsistencyAll p = .ok { p with consistency := "all" })
  ∧ (∀ p : Pusher, OptWithPrecision PrecisionNanosecond p = .ok { p with precision := "ns" })
  ∧ (∀ p : Pusher, OptWithPrecision PrecisionMicrosecond p = .ok { p with precision := "u" })
  ∧ (∀ p : Pusher, OptWithPrecision PrecisionMillisecond p = .ok { p with precision := "ms" })
  ∧ (∀ p : Pusher, OptWithPrecision PrecisionSecond p = .ok { p with precision := "s" })
  ∧ (∀ p : Pusher, OptWithPrecision PrecisionMinute p = .ok { p with precision := "m" })
  ∧ (∀ p : Pusher, OptWithPrecision PrecisionHour p = .ok { p with precision := "h" })
  ∧ (∀ (c : Consistency) (p : Pusher),
      c ≠ ConsistencyAny → c ≠ ConsistencyOne → c ≠ ConsistencyQuorum → c ≠ ConsistencyAll →
      OptWithConsistency c p = .error s!"Unknown consistency ({c})")
  ∧ (∀ (pr : Precision) (p : Pusher),
      pr ≠ PrecisionNanosecond → pr ≠ PrecisionMicrosecond → pr ≠ PrecisionMillisecond →
      pr ≠ PrecisionSecond → pr ≠ PrecisionMinute → pr ≠ PrecisionHour →
      OptWithPrecision pr p = .error s!"Unknown precision ({pr})") := by
  refine ⟨fun p => rfl, fun p => rfl, fun p => rfl, fun p => rfl, fun p => rfl,
    fun p => rfl, fun p => rfl, fun p => rfl, fun p => rfl, fun p => rfl, ?_, ?_⟩
  · intro c p h0 h1 h2 h3
    simp [OptWithConsistency, consistencyToString, h0, h1, h2, h3]
  · intro pr p h0 h1 h2 h3 h4 h5
    simp [OptWithPrecision, precisionToString, h0, h1, h2, h3, h4, h5]

/-- Witness for C4: concrete instances of opt_enum_validation, including
the rejection of the out-of-range ordinal 42 for both enumerations. -/
theorem opt_enum_validation_witness :
    OptWithConsistency 42 Pusher.zero = .error "Unknown consistency (42)"
  ∧ OptWithPrecision 42 Pusher.zero = .error "Unknown precision (42)"
  ∧ OptWithConsistency ConsistencyQuorum Pusher.zero
      = .ok { Pusher.zero with consistency := "quorum" } :=
  ⟨opt_enum_validation.2.2.2.2.2.2.2.2.2.2.1 42 Pusher.zero
      (by decide) (by decide) (by decide) (by decide),
   opt_enum_validation.2.2.2.2.2.2.2.2.2.2.2 42 Pusher.zero
      (by decide) (by decide) (by decide) (by decide) (by decide) (by decide),
   opt_enum_validation.2.2.1 Pusher.zero⟩

/-- C5: NewPusher fails (returning an error and no pusher) when baseURL is
empty, when db is empty, or when an option fails; in the last case the
options before the failing one are applied in order, construction aborts at
the first failing option (the remaining options are never applied: the
result does not depend on opts2), and only the error escapes — the
partially built configuration is discarded. -/
theorem newPusher_validation :
    (∀ (db : String) (opts : List Opt),
        NewPusher "" db opts = .error "no url provided")
  ∧ (∀ (url : String) (opts : List Opt), url ≠ "" →
        NewPusher url "" opts = .error "no database provided")
  ∧ (∀ (url db : String) (opts1 opts2 : List Opt) (o : Opt) (p : Pusher) (e : String),
        url ≠ "" → db ≠ "" →
        applyOpts Pusher.zero opts1 = .ok p → o p = .error e →
        NewPusher url db (opts1 ++ o :: opts2)
          = .error ("error when creating new pusher: " ++ e)) := by
  refine ⟨fun db opts => rfl, ?_, ?_⟩
  · intro url opts hu
    simp [NewPusher, hu]
  · intro url db opts1 opts2 o p e hu hd h1 h2
    simp only [NewPusher, if_neg hu, if_neg hd]
    rw [applyOpts_append opts1 (o :: opts2) Pusher.zero p h1]
    simp [applyOpts, h2]

/-- Witness for C5: all three failure modes at concrete inputs; in the
third, the first option succeeds, the second fails (unknown consistency)
and the third is never applied. -/
theorem newPusher_validation_witness :
    NewPusher "" "d" [] = .error "no url provided"
  ∧ NewPusher "u" "" [] = .error "no database provided"
  ∧ NewPusher "u" "d"
      [OptWithUserPass "a" "b", OptWithConsistency 42, OptWithRetentionPolicy "r"]
      = .error "error when creating new pusher: Unknown consistency (42)" :=
  ⟨newPusher_validation.1 "d" [],
   newPusher_validation.2.1 "u" [] (by decide),
   newPusher_validation.2.2 "u" "d" [OptWithUserPass "a" "b"]
     [OptWithRetentionPolicy "r"] (OptWithConsistency 42)
     { Pusher.zero with username := "a", password := "b" }
     "Unknown consistency (42)" (by decide) (by decide) (by decide) (by decide)⟩

/-- C8: the error-kind predicates are independent variant tests over the
opaque error value: an error built by newError with kind k satisfies
isErrorType exactly at kind k; the result never depends on the wrapped
detail text; each exported predicate answers true on its own kind and false
on the three others; and on any error value at most one of the four
exported predicates is true. -/
theorem error_kind_predicates :
    (∀ (k t : errorType) (d : String),
        isErrorType (some (newError k d)) t = (k == t))
  ∧ (∀ (k t : errorType) (d d2 : String),
        isErrorType (some (newError k d)) t = isErrorType (some (newError k d2)) t)
  ∧ (∀ d : String,
        IsBadRequestError (some (newError errTypeBadRequest d)) = true
      ∧ IsUnauthorizedError (some (newError errTypeBadRequest d)) = false
      ∧ IsNotExistError (some (newError errTypeBadRequest d)) = false
      ∧ IsServerProblemError (some (newError errTypeBadRequest d)) = false)
  ∧ (∀ d : String,
        IsUnauthorizedError (some (newError errTypeUnauthorized d)) = true
      ∧ IsBadRequestError (some (newError errTypeUnauthorized d)) = false
      ∧ IsNotExistError (some (newError errTypeUnauthorized d)) = false
      ∧ IsServerProblemError (some (newError errTypeUnauthorized d)) = false)
  ∧ (∀ d : String,
        IsNotExistError (some (newError errTypeNotExist d)) = true
      ∧ IsBadRequestError (some (newError errTypeNotExist d)) = false
      ∧ IsUnauthorizedError (some (newError errTypeNotExist d)) = false
      ∧ IsServerProblemError (some (newError errTypeNotExist d)) = false)
  ∧ (∀ d : String,
        IsServerProblemError (some (newError errTypeServerProblem d)) = true
      ∧ IsBadRequestError (some (newError errTypeServerProblem d)) = false
      ∧ IsUnauthorizedError (some (newError errTypeServerProblem d)) = false
      ∧ IsNotExistError (some (newError errTypeServerProblem d)) = false)
  ∧ (∀ err : Option GoError,
        ([IsBadRequestError err, IsUnauthorizedError err,
          IsNotExistError err, IsServerProblemError err].count true) ≤ 1) := by
  refine ⟨fun k t d => rfl, fun k t d d2 => rfl,
    fun d => ⟨rfl, rfl, rfl, rfl⟩, fun d => ⟨rfl, rfl, rfl, rfl⟩,
    fun d => ⟨rfl, rfl, rfl, rfl⟩, fun d => ⟨rfl, rfl, rfl, rfl⟩, ?_⟩
  intro err
  match err with
  | none => decide
  | some (.generic m) =>
      simp [IsBadRequestError, IsUnauthorizedError, IsNotExistError,
        IsServerProblemError, isErrorType]
  | some (.pushError t d) =>
      cases t <;>
        simp only [IsBadRequestError, IsUnauthorizedError, IsNotExistError,
          IsServerProblemError, isErrorType] <;>
        decide

/-- C10: each of the four exported predicates returns false (it does not
panic and does not return true) on nil and on any error value that was not
built by this package's newError, i.e. any non-pushError error. -/
theorem predicates_false_on_foreign_errors :
    (IsBadRequestError none = false
      ∧ IsUnauthorizedError none = false
      ∧ IsNotExistError none = false
      ∧ IsServerProblemError none = false)
  ∧ (∀ msg : String,
        IsBadRequestError (some (GoError.generic msg)) = false
      ∧ IsUnauthorizedError (some (GoError.generic msg)) = false
      ∧ IsNotExistError (some (GoError.generic msg)) = false
      ∧ IsServerProblemError (some (GoError.generic msg)) = false) :=
  ⟨⟨rfl, rfl, rfl, rfl⟩, fun msg => ⟨rfl, rfl, rfl, rfl⟩⟩

/-- C9: Push never mutates the configuration: every field of the pusher is
identical before and after the call, for every pusher and every file-path
argument, so a configuration can be reused across any number of pushes. -/
theorem push_preserves_config (p : Pusher) (f : String) :
    (Push p f).1.baseURL = p.baseURL
  ∧ (Push p f).1.db = p.db
  ∧ (Push p f).1.username = p.username
  ∧ (Push p f).1.password = p.password
  ∧ (Push p f).1.consistency = p.consistency
  ∧ (Push p f).1.precision = p.precision
  ∧ (Push p f).1.retentionPolicy = p.retentionPolicy := by
  cases h : pushURL p <;> simp [Push, h]

/-- C1 fails on the code: the URL built by Push contains no query key at
all, even when every optional field is configured. A pusher built by
NewPusher with all options set carries the configured option strings (but
an empty baseURL and db, which NewPusher drops), and pushBuiltURL on it is
the empty string; even on a pusher whose baseURL and db fields are set
directly, the built URL is the bare base URL with no db, consistency, u, p,
precision or rp key, because addQueryParamIfNotEmpty adds the pair to the
fresh copy returned by Query() and that copy is discarded. This contradicts
the repository's own tests TestPushNominal and TestAddQueryParamIfNotEmpty. -/
theorem push_built_url_has_no_query_params :
    NewPusher "http://1.2.3.4:8086" "d"
      [OptWithConsistency ConsistencyAll, OptWithPrecision PrecisionHour,
       OptWithUserPass "us" "pa", OptWithRetentionPolicy "r"]
      = .ok { Pusher.zero with
                username := "us", password := "pa",
                consistency := "all", precision := "h", retentionPolicy := "r" }
  ∧ pushBuiltURL { Pusher.zero with
        username := "us", password := "pa",
        consistency := "all", precision := "h", retentionPolicy := "r" }
      = some ""
  ∧ pushBuiltURL ⟨"http://1.2.3.4:8086/write", "d", "us", "pa", "all", "h", "r"⟩
      = some "http://1.2.3.4:8086/write" := by
  refine ⟨by decide, by decide, by decide⟩

/-- C2 fails on the code: Push performs no HTTP request at all (the POST is
commented out in pkg/pusher.go) and returns nil for every configuration
whose stored baseURL parses, whatever status any server would answer; in
particular no server-problem (or unauthorized, not-exist) error can ever be
produced, contradicting the repository's own test TestPushWrongStatus. -/
theorem push_ignores_http_status :
    NewPusher "http://127.0.0.1:8086" "db" [] = .ok Pusher.zero
  ∧ Push Pusher.zero "../testdata/sampleData.txt" = (Pusher.zero, none)
  ∧ IsServerProblemError (Push Pusher.zero "../testdata/sampleData.txt").2 = false := by
  refine ⟨by decide, by decide, by decide⟩

/-- C3 fails on the code: NewPusher never assigns the baseURL argument to
the pusher it returns (and appends no write suffix), so the stored write
URL is the empty string instead of a string ending in /write. This
contradicts the repository's own tests TestNewPusherNominal and
TestNewPusherUrlCompletion, which expect url/write to be stored. -/
theorem newPusher_drops_baseURL :
    NewPusher "http://1.2.3.4:8086" "db" [] = .ok Pusher.zero
  ∧ Pusher.zero.baseURL = ""
  ∧ Pusher.zero.baseURL ≠ "http://1.2.3.4:8086/write" := by
  refine ⟨by decide, by decide, by decide⟩

/-- C6 fails on the code: for a non-empty baseURL that Go's url.Parse
rejects (here one containing an ASCII control character), NewPusher indeed
succeeds — matching the first half of the claim — but the subsequent Push
returns nil rather than a bad-request error, because NewPusher discarded
the baseURL argument and Push parses the stored empty string, which
succeeds. This contradicts the repository's own test TestPushUrlProblem. -/
theorem push_unparsable_url_not_bad_request :
    goURLParse "http://1.2.3.4\x00:8086"
      = .error "net/url: invalid control character in URL"
  ∧ NewPusher "http://1.2.3.4\x00:8086" "db" [] = .ok Pusher.zero
  ∧ Push Pusher.zero "../testdata/sampleData.txt" = (Pusher.zero, none)
  ∧ IsBadRequestError (Push Pusher.zero "../testdata/sampleData.txt").2 = false := by
  refine ⟨by decide, by decide, by decide, by decide⟩

/-- C7 fails on the code: Push never opens (or even looks at) the file-path
argument and returns nil for a path naming no existing file, instead of a
non-nil local-failure error; indeed the code's error taxonomy has no
local-failure kind at all — its four kinds are exactly bad request,
unauthorized, not exist and server problem. This contradicts the
repository's own test TestPushNonExistingFile. -/
theorem push_missing_file_returns_nil :
    NewPusher "http://127.0.0.1:8086" "d" [] = .ok Pusher.zero
  ∧ Push Pusher.zero "nonExistingFile.txt" = (Pusher.zero, none)
  ∧ (∀ t : errorType,
        t = errTypeBadRequest ∨ t = errTypeUnauthorized
      ∨ t = errTypeNotExist ∨ t = errTypeServerProblem) := by
  refine ⟨by decide, by decide, ?_⟩
  intro t
  cases t
  · exact Or.inl rfl
  · exact Or.inr (Or.inl rfl)
  · exact Or.inr (Or.inr (Or.inl rfl))
  · exact Or.inr (Or.inr (Or.inr rfl))
